import Mathlib

/-!
Verification development for the anyagent repository.

Part 1 embeds the publish script (src/publish.py): an interactive CLI that
cleans old build artifacts, builds a distribution, checks it, and uploads it
to TestPyPI and/or PyPI depending on prompt answers.  Subprocess execution,
stdin and stdout are modelled by an environment record; the body of the
Python function main is transcribed as a small script value interpreted by
runScript.

Part 2 embeds the proto package initializer (src/anyagent/proto/__init__.py).

Part 3 models the Agent Invocation Protocol.  That protocol has no code
under src/; the spec describes it as inferred from the package layout, so
the definitions there are modelled from the spec text and are marked as such.
-/

/-- Outcome of running one shell command: Python subprocess.run with
check=True either returns a completed process (stdout captured) or raises
CalledProcessError (stderr captured). -/
inductive CmdOutcome where
  | success (stdout : String)
  | failure (stderr : String)
deriving DecidableEq

/-- Observable events of the publish script: a printed line, a shell command
handed to subprocess.run, or an input prompt shown to the user. -/
inductive Event where
  | print (s : String)
  | runCmd (cmd : String)
  | ask (prompt : String)
deriving DecidableEq

/-- The ambient world of publish.py: whether setup.py exists in the current
directory, what each shell command does, and what the user answers to each
prompt.  The three prompt strings are pairwise distinct and each is shown at
most once per run, so reading stdin line by line is equivalent to a response
function keyed by the prompt text. -/
structure Env where
  setupExists : Bool
  exec : String → CmdOutcome
  respond : String → String

/-- Embedding of run_command (src/publish.py lines 10 to 20): print the
description, run the command; on success print completion and return stdout,
on failure print the failure line and the stderr and signal abort (none),
which main turns into sys.exit(1). -/
def run_command (exec : String → CmdOutcome) (cmd desc : String) :
    List Event × Option String :=
  match exec cmd with
  | .success out =>
      ([.print ("🔄 " ++ desc ++ "..."), .runCmd cmd,
        .print ("✅ " ++ desc ++ " completed")], some out)
  | .failure err =>
      ([.print ("🔄 " ++ desc ++ "..."), .runCmd cmd,
        .print ("❌ " ++ desc ++ " failed:"), .print ("Error: " ++ err)], none)

/-- Straight-line control flow of the body of main: print a message, run a
command through run_command (aborting the rest on failure), or ask a prompt
and branch on the answer. -/
inductive Script where
  | halt : Script
  | say : String → Script → Script
  | step : String → String → Script → Script
  | prompt : String → (String → Script) → Script

/-- Interpreter for Script: returns the event trace and the process exit
code (0 for a normal return from main, 1 for sys.exit(1) inside
run_command). -/
def runScript (env : Env) : Script → List Event × Nat
  | .halt => ([], 0)
  | .say m k =>
      let r := runScript env k
      (Event.print m :: r.1, r.2)
  | .step cmd desc k =>
      match run_command env.exec cmd desc with
      | (ev, some _) =>
          let r := runScript env k
          (ev ++ r.1, r.2)
      | (ev, none) => (ev, 1)
  | .prompt q k =>
      let r := runScript env (k (env.respond q))
      (Event.ask q :: r.1, r.2)

/-- Embedding of the Python str.lower call applied to prompt answers.
Pointwise it agrees with String.toLower (Char.toLower folds exactly the
basic latin letters), but it is defined by structural recursion over the
character list so that concrete runs evaluate inside the kernel. -/
def pyLower (s : String) : String :=
  String.mk (s.data.map Char.toLower)

def CLEAN_CMD : String := "rm -rf build/ dist/ *.egg-info/"
def BUILD_CMD : String := "python3 setup.py sdist bdist_wheel"
def CHECK_CMD : String := "python3 -m twine check dist/*"
def TESTPYPI_UPLOAD_CMD : String :=
  "python3 -m twine upload --repository testpypi dist/*"
def TEST_INSTALL_CMD : String :=
  "pip install --index-url https://test.pypi.org/simple/ --extra-index-url https://pypi.org/simple/ anyagent"
def PYPI_UPLOAD_CMD : String := "python3 -m twine upload dist/*"

def TESTPYPI_PROMPT : String := "🤔 Upload to TestPyPI first? (y/n): "
def TEST_INSTALL_PROMPT : String := "🧪 Test install from TestPyPI? (y/n): "
def PROD_PROMPT : String := "🚀 Upload to production PyPI? (y/n): "

/-- Tail of main from the production prompt on (src/publish.py lines 54 to
64): upload to PyPI only when the lowercased answer is y, then print the
done message either way. -/
def prodPart : Script :=
  .prompt PROD_PROMPT fun r =>
    if pyLower r = "y" then
      .step PYPI_UPLOAD_CMD "Uploading to PyPI" <|
      .say "🎉 AnyAgent Framework published to PyPI!" <|
      .say "🔗 Check: https://pypi.org/project/anyagent/" <|
      .say "📦 Install with: pip install anyagent" <|
      .say "✅ Done!" .halt
    else
      .say "⏸️  Skipped production upload" <|
      .say "✅ Done!" .halt

/-- Body of main after the setup.py check (src/publish.py lines 32 to 64):
clean, build, check, optional TestPyPI upload with optional test install,
then the production part. -/
def publishScript : Script :=
  .step CLEAN_CMD "Cleaning previous builds" <|
  .step BUILD_CMD "Building package" <|
  .step CHECK_CMD "Checking package" <|
  .prompt TESTPYPI_PROMPT fun r =>
    if pyLower r = "y" then
      .say "📦 Uploading to TestPyPI..." <|
      .step TESTPYPI_UPLOAD_CMD "Uploading to TestPyPI" <|
      .say "✅ Uploaded to TestPyPI!" <|
      .say "🔗 Check: https://test.pypi.org/project/anyagent/" <|
      .prompt TEST_INSTALL_PROMPT fun t =>
        if pyLower t = "y" then
          .step TEST_INSTALL_CMD "Testing install from TestPyPI" prodPart
        else prodPart
    else prodPart

/-- Embedding of main (src/publish.py lines 23 to 66; the Lean name main is reserved for the IO entry point, hence publishMain): print the banner,
exit 1 if setup.py is missing, otherwise run the publish script. -/
def publishMain (env : Env) : List Event × Nat :=
  if env.setupExists then
    let r := runScript env publishScript
    (Event.print "🚀 Publishing AnyAgent Framework to PyPI" :: r.1, r.2)
  else
    ([Event.print "🚀 Publishing AnyAgent Framework to PyPI",
      Event.print "❌ setup.py not found. Run this from the project root."], 1)

/-- The shell commands actually executed in a trace, in order. -/
def cmds (evs : List Event) : List String :=
  evs.filterMap fun e =>
    match e with
    | .runCmd c => some c
    | _ => none

/-- One top-level statement of the proto package initializer: a relative
module import (from . import name) or the assignment to the dunder all
list. -/
inductive PyStmt where
  | importFrom (name : String)
  | setAll (names : List String)

/-- The statements of src/anyagent/proto/__init__.py in source order: the
agent_pb2 module import, the agent_pb2_grpc module import, then the
declaration of the public surface. -/
def protoInitBody : List PyStmt :=
  [.importFrom "agent_pb2", .importFrom "agent_pb2_grpc",
   .setAll ["agent_pb2", "agent_pb2_grpc"]]

/-- The namespace a Python module builds while its body executes: the names
bound so far (in binding order) and the declared public list, if any. -/
structure ModuleNamespace where
  bound : List String
  allNames : Option (List String)
deriving DecidableEq

/-- Python module-body execution: statements run in order; a failing
relative import raises ImportError, which aborts the body, so no namespace
is produced at all.  The oracle says which submodules are importable. -/
def execStmts (importable : String → Bool) :
    List PyStmt → ModuleNamespace → Except String ModuleNamespace
  | [], st => .ok st
  | .importFrom n :: rest, st =>
      if importable n then
        execStmts importable rest ⟨st.bound ++ [n], st.allNames⟩
      else .error ("ImportError: cannot import name " ++ n)
  | .setAll ns :: rest, st =>
      execStmts importable rest ⟨st.bound, some ns⟩

/-- Importing anyagent.proto runs the initializer body on an empty
namespace. -/
def importProto (importable : String → Bool) : Except String ModuleNamespace :=
  execStmts importable protoInitBody ⟨[], none⟩

namespace AIP

/-- Modelled from the spec: outcome field of a TerminalStatus (section 3);
the service code itself is absent from src/. -/
inductive Outcome where
  | completed
  | failed
  | cancelled
deriving DecidableEq

/-- Modelled from the spec: one unit of incremental agent output
(section 3); the message schema module is absent from src/. -/
structure OutputChunk where
  request_id : String
  sequence_number : Nat
  data : String
deriving DecidableEq

/-- Modelled from the spec: the single final outcome message of a session
(section 3); the message schema module is absent from src/. -/
structure TerminalStatus where
  request_id : String
  outcome : Outcome
  detail : String
deriving DecidableEq

/-- Modelled from the spec: the streaming response is a tagged union of
OutputChunk and TerminalStatus (section 9); absent from src/. -/
inductive StreamMsg where
  | chunk (c : OutputChunk)
  | terminal (t : TerminalStatus)
deriving DecidableEq

/-- Modelled from the spec: session states pending, running, completed,
failed, cancelled (section 4.2); absent from src/. -/
inductive SessionState where
  | pending
  | running
  | completed
  | failed
  | cancelled
deriving DecidableEq

/-- Modelled from the spec: completed, failed and cancelled are the terminal
states (section 4.2). -/
def SessionState.isTerminal : SessionState → Bool
  | .completed => true
  | .failed => true
  | .cancelled => true
  | _ => false

/-- Modelled from the spec: server-side record binding a request_id to its
state, accumulated sequence number and cancellation flag (section 3). -/
structure Session where
  state : SessionState
  nextSeq : Nat
  cancelRequested : Bool
deriving DecidableEq

/-- Modelled from the spec: the session table, the only shared mutable
structure (section 5), plus the process-wide serving flag. -/
structure HandlerState where
  sessions : List (String × Session)
  serving : Bool
deriving DecidableEq

/-- Modelled from the spec: request message with caller-generated id,
opaque payload and optional absolute deadline (section 3). -/
structure InvocationRequest where
  request_id : String
  payload : String
  deadline : Option Nat
deriving DecidableEq

/-- Modelled from the spec: the error kinds of section 7 that the handler
reports synchronously. -/
inductive ErrorKind where
  | InvalidRequest
  | DuplicateRequest
  | DeadlineExceeded
  | NotFound
deriving DecidableEq

/-- Modelled from the spec: process-wide health report (section 3). -/
structure HealthStatus where
  serving : Bool
  active_session_count : Nat
deriving DecidableEq

/-- Lookup in the session table by request_id (first match wins; newer
entries are prepended). -/
def lookupSession (st : HandlerState) (rid : String) : Option Session :=
  (st.sessions.find? fun p => p.1 == rid).map fun p => p.2

/-- Replace the session stored under a request_id, keeping the rest of the
table. -/
def updateSession (st : HandlerState) (rid : String) (s : Session) :
    HandlerState :=
  ⟨st.sessions.map fun p => if p.1 == rid then (rid, s) else p, st.serving⟩

/-- Modelled from the spec: number of non-terminal sessions, reported by
Health (sections 3 and 4.3). -/
def activeCount (st : HandlerState) : Nat :=
  (st.sessions.filter fun p => !p.2.state.isTerminal).length

/-- Modelled from the spec: Health never blocks and answers from
process-wide counters (section 4.3). -/
def health (st : HandlerState) : HealthStatus :=
  ⟨st.serving, activeCount st⟩

/-- A session as first created on admission: pending, sequence 0, no
cancellation requested (section 4.2). -/
def freshSession : Session :=
  ⟨.pending, 0, false⟩

/-- Modelled from the spec: admission control of Invoke (sections 4.1, 4.3,
7).  A request past its deadline is rejected with DeadlineExceeded before a
Session is created; an empty request_id is InvalidRequest; a request_id
with a non-terminal session in flight is DuplicateRequest; otherwise a
pending Session is created.  All rejections leave the handler state
untouched. -/
def invoke (st : HandlerState) (req : InvocationRequest) (now : Nat) :
    HandlerState × Except ErrorKind Unit :=
  if (req.deadline.any fun d => d < now) then
    (st, .error .DeadlineExceeded)
  else if req.request_id = "" then
    (st, .error .InvalidRequest)
  else if (lookupSession st req.request_id).any
      (fun s => !s.state.isTerminal) then
    (st, .error .DuplicateRequest)
  else
    (⟨(req.request_id, freshSession) :: st.sessions, st.serving⟩, .ok ())

/-- Modelled from the spec: Cancel (section 4.3).  NotFound only when the
handler never saw the request_id; a no-op acknowledgement when the session
is already terminal; otherwise it sets the cooperative cancellation flag. -/
def cancel (st : HandlerState) (rid : String) :
    HandlerState × Except ErrorKind Unit :=
  match lookupSession st rid with
  | none => (st, .error .NotFound)
  | some s =>
      if s.state.isTerminal then (st, .ok ())
      else (updateSession st rid ⟨s.state, s.nextSeq, true⟩, .ok ())

/-- Modelled from the spec: whether the cancellation flag, set just before
chunk boundary j, is visible at the current boundary (section 4.2:
cancellation is observed cooperatively at the next chunk boundary). -/
def cancelObserved (cancelAt : Option Nat) (boundary : Nat) : Bool :=
  match cancelAt with
  | some j => decide (j ≤ boundary)
  | none => false

/-- Modelled from the spec: the handler drives the work function (section
4.3).  The work function yields its chunks in order and then either a
result or an error; the handler checks the cancellation flag at every chunk
boundary, numbers chunks from the running counter, and closes the stream
with exactly one TerminalStatus: cancelled when the flag was observed,
otherwise completed or failed from the work result (failures are caught,
never propagated as transport faults). -/
def runWork (rid : String) :
    List String → Nat → Except String String → Option Nat → List StreamMsg
  | [], _, result, _ =>
      match result with
      | .ok d => [.terminal ⟨rid, .completed, d⟩]
      | .error e => [.terminal ⟨rid, .failed, e⟩]
  | d :: rest, seq, result, cancelAt =>
      if cancelObserved cancelAt seq then
        [.terminal ⟨rid, .cancelled, "cancelled by client"⟩]
      else
        .chunk ⟨rid, seq, d⟩ :: runWork rid rest (seq + 1) result cancelAt

/-- Modelled from the spec: the full message stream of one session, chunk
numbering starting at 0 (section 3). -/
def sessionTrace (rid : String) (chunks : List String)
    (result : Except String String) (cancelAt : Option Nat) :
    List StreamMsg :=
  runWork rid chunks 0 result cancelAt

/-- The sequence numbers of the chunks of a stream, in order. -/
def chunkSeqs (msgs : List StreamMsg) : List Nat :=
  msgs.filterMap fun m =>
    match m with
    | .chunk c => some c.sequence_number
    | _ => none

/-- How many terminal statuses a stream carries. -/
def terminalCount (msgs : List StreamMsg) : Nat :=
  (msgs.filter fun m =>
    match m with
    | .terminal _ => true
    | _ => false).length

/-- The request_id a stream message refers to. -/
def msgRid (m : StreamMsg) : String :=
  match m with
  | .chunk c => c.request_id
  | .terminal t => t.request_id

end AIP

/-! Basic computation lemmas for the publish script interpreter. -/

@[simp]
theorem runScript_halt (env : Env) : runScript env .halt = ([], 0) := rfl

@[simp]
theorem runScript_say (env : Env) (m : String) (k : Script) :
    runScript env (.say m k) =
      (Event.print m :: (runScript env k).1, (runScript env k).2) := rfl

@[simp]
theorem runScript_prompt (env : Env) (q : String) (k : String → Script) :
    runScript env (.prompt q k) =
      (Event.ask q :: (runScript env (k (env.respond q))).1,
       (runScript env (k (env.respond q))).2) := rfl

theorem runScript_step_success (env : Env) (cmd desc : String) (k : Script)
    (out : String) (h : env.exec cmd = .success out) :
    runScript env (.step cmd desc k) =
      (Event.print ("🔄 " ++ desc ++ "...") :: Event.runCmd cmd ::
        Event.print ("✅ " ++ desc ++ " completed") :: (runScript env k).1,
       (runScript env k).2) := by
  simp [runScript, run_command, h]

theorem runScript_step_failure (env : Env) (cmd desc : String) (k : Script)
    (err : String) (h : env.exec cmd = .failure err) :
    runScript env (.step cmd desc k) =
      ([Event.print ("🔄 " ++ desc ++ "..."), Event.runCmd cmd,
        Event.print ("❌ " ++ desc ++ " failed:"),
        Event.print ("Error: " ++ err)], 1) := by
  simp [runScript, run_command, h]

@[simp]
theorem cmds_nil : cmds [] = [] := rfl

@[simp]
theorem cmds_print (s : String) (l : List Event) :
    cmds (Event.print s :: l) = cmds l := rfl

@[simp]
theorem cmds_ask (q : String) (l : List Event) :
    cmds (Event.ask q :: l) = cmds l := rfl

@[simp]
theorem cmds_runCmd (c : String) (l : List Event) :
    cmds (Event.runCmd c :: l) = c :: cmds l := rfl

/-- Every command a script run executes was either a success, or it was the
last command executed, the run exits 1, and the stderr of the failure was
printed. -/
theorem runScript_cmd_discipline (env : Env) (s : Script) (c : String) :
    c ∈ cmds (runScript env s).1 →
    ((∃ out, env.exec c = .success out) ∨
     (∃ err, env.exec c = .failure err ∧ (runScript env s).2 = 1 ∧
       (cmds (runScript env s).1).getLast? = some c ∧
       Event.print ("Error: " ++ err) ∈ (runScript env s).1)) := by
  induction s with
  | halt =>
      intro hc
      simp at hc
  | say m k ih =>
      intro hc
      simp only [runScript_say, cmds_print] at hc ⊢
      rcases ih hc with h | ⟨err, h1, h2, h3, h4⟩
      · exact Or.inl h
      · exact Or.inr ⟨err, h1, h2, h3, List.mem_cons_of_mem _ h4⟩
  | prompt q k ih =>
      intro hc
      simp only [runScript_prompt, cmds_ask] at hc ⊢
      rcases ih (env.respond q) hc with h | ⟨err, h1, h2, h3, h4⟩
      · exact Or.inl h
      · exact Or.inr ⟨err, h1, h2, h3, List.mem_cons_of_mem _ h4⟩
  | step cmd desc k ih =>
      intro hc
      cases hex : env.exec cmd with
      | success out =>
          rw [runScript_step_success env cmd desc k out hex] at hc ⊢
          simp only [cmds_print, cmds_runCmd] at hc ⊢
          rcases List.mem_cons.mp hc with rfl | hmem
          · exact Or.inl ⟨out, hex⟩
          · rcases ih hmem with h | ⟨err, h1, h2, h3, h4⟩
            · exact Or.inl h
            · refine Or.inr ⟨err, h1, h2, ?_, ?_⟩
              · rcases hl : cmds (runScript env k).1 with _ | ⟨x, xs⟩
                · rw [hl] at h3; simp at h3
                · rw [hl] at h3
                  rw [List.getLast?_cons_cons, h3]
              · simp only [List.mem_cons]
                exact Or.inr (Or.inr (Or.inr h4))
      | failure err =>
          rw [runScript_step_failure env cmd desc k err hex] at hc ⊢
          simp only [cmds_print, cmds_runCmd, cmds_nil] at hc ⊢
          rcases List.mem_singleton.mp hc with rfl
          refine Or.inr ⟨err, hex, ?_, ?_, ?_⟩ <;> simp

/-- The trace and exit code of publishMain when setup.py exists. -/
theorem publishMain_of_setup (env : Env) (hs : env.setupExists = true) :
    publishMain env =
      (Event.print "🚀 Publishing AnyAgent Framework to PyPI" ::
        (runScript env publishScript).1,
       (runScript env publishScript).2) := by
  simp [publishMain, hs]

/-- C1: every step the publish script runs through run_command either
succeeds, with run_command returning the captured stdout, or the command
is the last one ever executed, the process exits with status 1, and the
stderr of the failing step has been printed first. -/
theorem publish_step_discipline (env : Env) (c : String)
    (hc : c ∈ cmds (publishMain env).1) :
    (∃ out, env.exec c = .success out ∧
      ∀ desc, (run_command env.exec c desc).2 = some out) ∨
    (∃ err, env.exec c = .failure err ∧ (publishMain env).2 = 1 ∧
      (cmds (publishMain env).1).getLast? = some c ∧
      Event.print ("Error: " ++ err) ∈ (publishMain env).1) := by
  by_cases hs : env.setupExists = true
  · rw [publishMain_of_setup env hs] at hc ⊢
    simp only [cmds_print] at hc ⊢
    rcases runScript_cmd_discipline env publishScript c hc with
      ⟨out, h⟩ | ⟨err, h1, h2, h3, h4⟩
    · exact Or.inl ⟨out, h, fun desc => by simp [run_command, h]⟩
    · exact Or.inr ⟨err, h1, h2, h3, List.mem_cons_of_mem _ h4⟩
  · simp only [Bool.not_eq_true] at hs
    simp [publishMain, hs, cmds] at hc

/-- A world where the build step fails: setup.py exists, every command
succeeds except the build command, every prompt is answered n. -/
def envFailBuild : Env :=
  ⟨true,
   fun c => if c = BUILD_CMD then .failure "no module setuptools"
            else .success "ok",
   fun _ => "n"⟩

/-- Concrete instance of publish_step_discipline: in envFailBuild the build
command is executed and the failure branch of the theorem applies to it. -/
theorem publish_step_discipline_witness :
    BUILD_CMD ∈ cmds (publishMain envFailBuild).1 ∧
    ((∃ out, envFailBuild.exec BUILD_CMD = .success out ∧
       ∀ desc, (run_command envFailBuild.exec BUILD_CMD desc).2 = some out) ∨
     (∃ err, envFailBuild.exec BUILD_CMD = .failure err ∧
       (publishMain envFailBuild).2 = 1 ∧
       (cmds (publishMain envFailBuild).1).getLast? = some BUILD_CMD ∧
       Event.print ("Error: " ++ err) ∈ (publishMain envFailBuild).1)) :=
  ⟨by decide, publish_step_discipline envFailBuild BUILD_CMD (by decide)⟩

/-- C8: when setup.py is missing, publishMain exits with status 1 having
executed no shell command at all; the whole trace is the banner and the
missing-file message, so nothing was removed, built or uploaded. -/
theorem missing_setup_aborts (env : Env) (h : env.setupExists = false) :
    (publishMain env).2 = 1 ∧ cmds (publishMain env).1 = [] ∧
    (publishMain env).1 =
      [Event.print "🚀 Publishing AnyAgent Framework to PyPI",
       Event.print "❌ setup.py not found. Run this from the project root."] := by
  simp [publishMain, h, cmds]

/-- A world with no setup.py in the working directory. -/
def envNoSetup : Env :=
  ⟨false, fun _ => .success "", fun _ => ""⟩

/-- Concrete instance of missing_setup_aborts. -/
theorem missing_setup_aborts_witness :
    envNoSetup.setupExists = false ∧
    ((publishMain envNoSetup).2 = 1 ∧ cmds (publishMain envNoSetup).1 = [] ∧
     (publishMain envNoSetup).1 =
       [Event.print "🚀 Publishing AnyAgent Framework to PyPI",
        Event.print "❌ setup.py not found. Run this from the project root."]) :=
  ⟨rfl, missing_setup_aborts envNoSetup rfl⟩

/-- C3: any upload command (TestPyPI or PyPI) is only ever executed after
the build command has succeeded, and the build command occurs strictly
earlier in the list of executed commands. -/
theorem upload_only_after_build (env : Env) (u : String)
    (hu : u = TESTPYPI_UPLOAD_CMD ∨ u = PYPI_UPLOAD_CMD)
    (hc : u ∈ cmds (publishMain env).1) :
    (∃ out, env.exec BUILD_CMD = .success out) ∧
    ∃ l₁ l₂, cmds (publishMain env).1 = l₁ ++ BUILD_CMD :: l₂ ∧ u ∈ l₂ := by
  have hne1 : u ≠ CLEAN_CMD := by rcases hu with rfl | rfl <;> decide
  have hne2 : u ≠ BUILD_CMD := by rcases hu with rfl | rfl <;> decide
  by_cases hs : env.setupExists = true
  · rw [publishMain_of_setup env hs] at hc ⊢
    simp only [cmds_print] at hc ⊢
    rw [publishScript] at hc ⊢
    cases h1 : env.exec CLEAN_CMD with
    | failure e1 =>
        rw [runScript_step_failure _ _ _ _ _ h1] at hc
        simp only [cmds_print, cmds_runCmd, cmds_nil] at hc
        exact absurd (List.mem_singleton.mp hc) hne1
    | success o1 =>
        rw [runScript_step_success _ _ _ _ _ h1] at hc ⊢
        simp only [cmds_print, cmds_runCmd] at hc ⊢
        rcases List.mem_cons.mp hc with rfl | hc1
        · exact absurd rfl hne1
        · cases h2 : env.exec BUILD_CMD with
          | failure e2 =>
              rw [runScript_step_failure _ _ _ _ _ h2] at hc1
              simp only [cmds_print, cmds_runCmd, cmds_nil] at hc1
              exact absurd (List.mem_singleton.mp hc1) hne2
          | success o2 =>
              rw [runScript_step_success _ _ _ _ _ h2] at hc1 ⊢
              simp only [cmds_print, cmds_runCmd] at hc1 ⊢
              rcases List.mem_cons.mp hc1 with rfl | hc2
              · exact absurd rfl hne2
              · exact ⟨⟨o2, rfl⟩, [CLEAN_CMD], _, rfl, hc2⟩
  · simp only [Bool.not_eq_true] at hs
    simp [publishMain, hs, cmds] at hc

/-- A world where setup.py exists, every command succeeds and every prompt
is answered y. -/
def envAllYes : Env :=
  ⟨true, fun _ => .success "ok", fun _ => "y"⟩

/-- Concrete instance of upload_only_after_build: in envAllYes the PyPI
upload runs, and it runs after a successful build. -/
theorem upload_only_after_build_witness :
    PYPI_UPLOAD_CMD ∈ cmds (publishMain envAllYes).1 ∧
    ((∃ out, envAllYes.exec BUILD_CMD = .success out) ∧
     ∃ l₁ l₂, cmds (publishMain envAllYes).1 = l₁ ++ BUILD_CMD :: l₂ ∧
       PYPI_UPLOAD_CMD ∈ l₂) :=
  ⟨by decide,
   upload_only_after_build envAllYes PYPI_UPLOAD_CMD (Or.inr rfl) (by decide)⟩

@[simp]
theorem cmds_append (l1 l2 : List Event) :
    cmds (l1 ++ l2) = cmds l1 ++ cmds l2 :=
  List.filterMap_append l1 l2 _


/-- What the production part of the script does, split on the answer to
the production prompt. -/
theorem prodPart_facts (env : Env) :
    (pyLower (env.respond PROD_PROMPT) = "y" →
      cmds (runScript env prodPart).1 = [PYPI_UPLOAD_CMD]) ∧
    (pyLower (env.respond PROD_PROMPT) ≠ "y" →
      cmds (runScript env prodPart).1 = [] ∧
      (runScript env prodPart).2 = 0 ∧
      Event.print "✅ Done!" ∈ (runScript env prodPart).1 ∧
      Event.print "⏸️  Skipped production upload" ∈ (runScript env prodPart).1) := by
  rw [prodPart]
  by_cases hr3 : pyLower (env.respond PROD_PROMPT) = "y"
  · refine ⟨fun _ => ?_, fun h => absurd hr3 h⟩
    rw [runScript_prompt]
    simp only [hr3, ite_true, eq_self_iff_true]
    cases h5 : env.exec PYPI_UPLOAD_CMD with
    | success o5 => rw [runScript_step_success _ _ _ _ _ h5]; simp
    | failure e5 => rw [runScript_step_failure _ _ _ _ _ h5]; simp
  · refine ⟨fun h => absurd h hr3, fun _ => ?_⟩
    rw [runScript_prompt]
    simp only [hr3, ite_false, if_neg hr3]
    simp

/-- C9: assuming the run reaches the production prompt, the production
upload command is executed if and only if the lowercased answer to that
prompt is y; any other answer skips the upload and the script still exits 0
after printing the skipped and done messages.  Analogously, the TestPyPI
upload runs exactly when its prompt is answered y, and the test install runs
exactly when both the TestPyPI and the test-install prompts are answered
y. -/
theorem prompt_gates_uploads (env : Env)
    (hask : Event.ask PROD_PROMPT ∈ (publishMain env).1) :
    (PYPI_UPLOAD_CMD ∈ cmds (publishMain env).1 ↔
      pyLower (env.respond PROD_PROMPT) = "y") ∧
    (pyLower (env.respond PROD_PROMPT) ≠ "y" →
      (publishMain env).2 = 0 ∧
      Event.print "✅ Done!" ∈ (publishMain env).1 ∧
      Event.print "⏸️  Skipped production upload" ∈ (publishMain env).1) ∧
    (TESTPYPI_UPLOAD_CMD ∈ cmds (publishMain env).1 ↔
      pyLower (env.respond TESTPYPI_PROMPT) = "y") ∧
    (TEST_INSTALL_CMD ∈ cmds (publishMain env).1 ↔
      (pyLower (env.respond TESTPYPI_PROMPT) = "y" ∧
       pyLower (env.respond TEST_INSTALL_PROMPT) = "y")) := by
  obtain ⟨hy, hn⟩ := prodPart_facts env
  by_cases hs : env.setupExists = true
  · rw [publishMain_of_setup env hs] at hask ⊢
    rw [publishScript] at hask ⊢
    cases h1 : env.exec CLEAN_CMD with
    | failure e1 =>
        rw [runScript_step_failure _ _ _ _ _ h1] at hask
        simp at hask
    | success o1 =>
    rw [runScript_step_success _ _ _ _ _ h1] at hask ⊢
    cases h2 : env.exec BUILD_CMD with
    | failure e2 =>
        rw [runScript_step_failure _ _ _ _ _ h2] at hask
        simp at hask
    | success o2 =>
    rw [runScript_step_success _ _ _ _ _ h2] at hask ⊢
    cases h3 : env.exec CHECK_CMD with
    | failure e3 =>
        rw [runScript_step_failure _ _ _ _ _ h3] at hask
        simp at hask
    | success o3 =>
    rw [runScript_step_success _ _ _ _ _ h3] at hask ⊢
    rw [runScript_prompt] at hask ⊢
    by_cases hr1 : pyLower (env.respond TESTPYPI_PROMPT) = "y"
    · simp only [hr1, eq_self_iff_true, ite_true] at hask ⊢
      rw [runScript_say] at hask ⊢
      cases h4 : env.exec TESTPYPI_UPLOAD_CMD with
      | failure e4 =>
          rw [runScript_step_failure _ _ _ _ _ h4] at hask
          simp [PROD_PROMPT, TESTPYPI_PROMPT] at hask
      | success o4 =>
      rw [runScript_step_success _ _ _ _ _ h4] at hask ⊢
      rw [runScript_say, runScript_say, runScript_prompt] at hask ⊢
      by_cases hr2 : pyLower (env.respond TEST_INSTALL_PROMPT) = "y"
      · simp only [hr2, eq_self_iff_true, ite_true] at hask ⊢
        cases h5 : env.exec TEST_INSTALL_CMD with
        | failure e5 =>
            rw [runScript_step_failure _ _ _ _ _ h5] at hask
            simp [PROD_PROMPT, TESTPYPI_PROMPT, TEST_INSTALL_PROMPT] at hask
        | success o5 =>
        rw [runScript_step_success _ _ _ _ _ h5] at hask ⊢
        by_cases hr3 : pyLower (env.respond PROD_PROMPT) = "y"
        · have hcm := hy hr3
          simp [hcm, hr1, hr2, hr3, CLEAN_CMD, BUILD_CMD, CHECK_CMD,
                TESTPYPI_UPLOAD_CMD, TEST_INSTALL_CMD, PYPI_UPLOAD_CMD]
        · obtain ⟨hcm, hexit, hdone, hskip⟩ := hn hr3
          simp [hcm, hexit, hdone, hskip, hr1, hr2, hr3, CLEAN_CMD,
                BUILD_CMD, CHECK_CMD, TESTPYPI_UPLOAD_CMD, TEST_INSTALL_CMD,
                PYPI_UPLOAD_CMD]
      · simp only [hr2, ite_false, if_neg hr2] at hask ⊢
        by_cases hr3 : pyLower (env.respond PROD_PROMPT) = "y"
        · have hcm := hy hr3
          simp [hcm, hr1, hr2, hr3, CLEAN_CMD, BUILD_CMD, CHECK_CMD,
                TESTPYPI_UPLOAD_CMD, TEST_INSTALL_CMD, PYPI_UPLOAD_CMD]
        · obtain ⟨hcm, hexit, hdone, hskip⟩ := hn hr3
          simp [hcm, hexit, hdone, hskip, hr1, hr2, hr3, CLEAN_CMD,
                BUILD_CMD, CHECK_CMD, TESTPYPI_UPLOAD_CMD, TEST_INSTALL_CMD,
                PYPI_UPLOAD_CMD]
    · simp only [hr1, ite_false, if_neg hr1] at hask ⊢
      by_cases hr3 : pyLower (env.respond PROD_PROMPT) = "y"
      · have hcm := hy hr3
        simp [hcm, hr1, hr3, CLEAN_CMD, BUILD_CMD, CHECK_CMD,
              TESTPYPI_UPLOAD_CMD, TEST_INSTALL_CMD, PYPI_UPLOAD_CMD]
      · obtain ⟨hcm, hexit, hdone, hskip⟩ := hn hr3
        simp [hcm, hexit, hdone, hskip, hr1, hr3, CLEAN_CMD, BUILD_CMD,
              CHECK_CMD, TESTPYPI_UPLOAD_CMD, TEST_INSTALL_CMD,
              PYPI_UPLOAD_CMD]
  · simp only [Bool.not_eq_true] at hs
    simp [publishMain, hs] at hask

/-- Concrete instance of prompt_gates_uploads: envAllYes reaches the
production prompt and answers y everywhere, so all three uploads run. -/
theorem prompt_gates_uploads_witness :
    Event.ask PROD_PROMPT ∈ (publishMain envAllYes).1 ∧
    ((PYPI_UPLOAD_CMD ∈ cmds (publishMain envAllYes).1 ↔
       pyLower (envAllYes.respond PROD_PROMPT) = "y") ∧
     (pyLower (envAllYes.respond PROD_PROMPT) ≠ "y" →
       (publishMain envAllYes).2 = 0 ∧
       Event.print "✅ Done!" ∈ (publishMain envAllYes).1 ∧
       Event.print "⏸️  Skipped production upload" ∈ (publishMain envAllYes).1) ∧
     (TESTPYPI_UPLOAD_CMD ∈ cmds (publishMain envAllYes).1 ↔
       pyLower (envAllYes.respond TESTPYPI_PROMPT) = "y") ∧
     (TEST_INSTALL_CMD ∈ cmds (publishMain envAllYes).1 ↔
       (pyLower (envAllYes.respond TESTPYPI_PROMPT) = "y" ∧
        pyLower (envAllYes.respond TEST_INSTALL_PROMPT) = "y"))) :=
  ⟨by decide, prompt_gates_uploads envAllYes (by decide)⟩

/-- C2: when both generated modules are importable, importing anyagent.proto
binds exactly agent_pb2 and agent_pb2_grpc, in that order, and the declared
public surface is exactly those two names: the public list equals the list
of bound names. -/
theorem proto_public_surface (importable : String → Bool)
    (h1 : importable "agent_pb2" = true)
    (h2 : importable "agent_pb2_grpc" = true) :
    importProto importable =
      .ok ⟨["agent_pb2", "agent_pb2_grpc"],
           some ["agent_pb2", "agent_pb2_grpc"]⟩ ∧
    ∀ st, importProto importable = .ok st → st.allNames = some st.bound := by
  have key : importProto importable =
      .ok ⟨["agent_pb2", "agent_pb2_grpc"],
           some ["agent_pb2", "agent_pb2_grpc"]⟩ := by
    simp [importProto, protoInitBody, execStmts, h1, h2]
  refine ⟨key, fun st hst => ?_⟩
  rw [key] at hst
  injection hst with h
  subst h
  rfl

/-- Concrete instance of proto_public_surface with every submodule
importable. -/
theorem proto_public_surface_witness :
    ((fun _ : String => true) "agent_pb2" = true) ∧
    importProto (fun _ => true) =
      .ok ⟨["agent_pb2", "agent_pb2_grpc"],
           some ["agent_pb2", "agent_pb2_grpc"]⟩ :=
  ⟨rfl, (proto_public_surface (fun _ => true) rfl rfl).1⟩

/-- C10: importing anyagent.proto succeeds exactly when both generated
modules are importable from it; if either is missing the initializer raises
ImportError and no namespace, partial or otherwise, is produced. -/
theorem proto_import_all_or_nothing (importable : String → Bool) :
    ((∃ st, importProto importable = .ok st) ↔
      (importable "agent_pb2" = true ∧ importable "agent_pb2_grpc" = true)) ∧
    ((importable "agent_pb2" = false ∨ importable "agent_pb2_grpc" = false) →
      ∃ e, importProto importable = .error e) := by
  cases hA : importable "agent_pb2" <;> cases hB : importable "agent_pb2_grpc" <;>
    simp [importProto, protoInitBody, execStmts, hA, hB]

/-- Concrete instance of proto_import_all_or_nothing where the grpc stub
module is missing: the import errors out. -/
theorem proto_import_all_or_nothing_witness :
    ((fun n => n == "agent_pb2") "agent_pb2_grpc" = false) ∧
    ((∃ st, importProto (fun n => n == "agent_pb2") = .ok st) ↔
      ((fun n => n == "agent_pb2") "agent_pb2" = true ∧
       (fun n => n == "agent_pb2") "agent_pb2_grpc" = true)) ∧
    (∃ e, importProto (fun n => n == "agent_pb2") = .error e) :=
  ⟨rfl,
   (proto_import_all_or_nothing (fun n => n == "agent_pb2")).1,
   (proto_import_all_or_nothing (fun n => n == "agent_pb2")).2 (Or.inr rfl)⟩

namespace AIP

@[simp]
theorem chunkSeqs_nil : chunkSeqs [] = [] := rfl

@[simp]
theorem chunkSeqs_cons_chunk (c : OutputChunk) (l : List StreamMsg) :
    chunkSeqs (.chunk c :: l) = c.sequence_number :: chunkSeqs l := rfl

@[simp]
theorem chunkSeqs_cons_terminal (t : TerminalStatus) (l : List StreamMsg) :
    chunkSeqs (.terminal t :: l) = chunkSeqs l := rfl

@[simp]
theorem terminalCount_nil : terminalCount [] = 0 := rfl

@[simp]
theorem terminalCount_cons_chunk (c : OutputChunk) (l : List StreamMsg) :
    terminalCount (.chunk c :: l) = terminalCount l := rfl

@[simp]
theorem terminalCount_cons_terminal (t : TerminalStatus) (l : List StreamMsg) :
    terminalCount (.terminal t :: l) = terminalCount l + 1 := by
  simp [terminalCount, List.filter_cons]

theorem terminalCount_append (l1 l2 : List StreamMsg) :
    terminalCount (l1 ++ l2) = terminalCount l1 + terminalCount l2 := by
  simp [terminalCount, List.filter_append]

theorem terminalCount_of_chunks (l : List StreamMsg)
    (h : ∀ m ∈ l, ∃ c, m = .chunk c) : terminalCount l = 0 := by
  induction l with
  | nil => rfl
  | cons m rest ih =>
      obtain ⟨c, rfl⟩ := h m (List.mem_cons_self m rest)
      rw [terminalCount_cons_chunk]
      exact ih fun m hm => h m (List.mem_cons_of_mem _ hm)

/-- Every run of the work function produces some chunks followed by a
single terminal status, all carrying the session request id. -/
theorem runWork_decomp (rid : String) (result : Except String String)
    (cancelAt : Option Nat) :
    ∀ (chunks : List String) (seq : Nat),
      ∃ pre t, runWork rid chunks seq result cancelAt =
          pre ++ [StreamMsg.terminal t] ∧
        (∀ m ∈ pre, ∃ c, m = StreamMsg.chunk c ∧ c.request_id = rid) ∧
        t.request_id = rid := by
  intro chunks
  induction chunks with
  | nil =>
      intro seq
      cases result with
      | ok d => exact ⟨[], ⟨rid, .completed, d⟩, rfl, by simp, rfl⟩
      | error e => exact ⟨[], ⟨rid, .failed, e⟩, rfl, by simp, rfl⟩
  | cons d rest ih =>
      intro seq
      by_cases hcan : cancelObserved cancelAt seq = true
      · refine ⟨[], ⟨rid, .cancelled, "cancelled by client"⟩, ?_, by simp, rfl⟩
        simp [runWork, hcan]
      · obtain ⟨pre, t, heq, hpre, hrid⟩ := ih (seq + 1)
        refine ⟨.chunk ⟨rid, seq, d⟩ :: pre, t, ?_, ?_, hrid⟩
        · simp only [runWork, hcan, Bool.false_eq_true, if_false, heq,
            List.cons_append]
        · intro m hm
          rcases List.mem_cons.mp hm with rfl | hm
          · exact ⟨_, rfl, rfl⟩
          · exact hpre m hm

/-- The chunk numbering of a work run is consecutive from the starting
counter. -/
theorem runWork_seqs (rid : String) (result : Except String String)
    (cancelAt : Option Nat) :
    ∀ (chunks : List String) (seq : Nat),
      ∃ n, chunkSeqs (runWork rid chunks seq result cancelAt) =
        List.range' seq n := by
  intro chunks
  induction chunks with
  | nil =>
      intro seq
      refine ⟨0, ?_⟩
      cases result <;> simp [runWork]
  | cons d rest ih =>
      intro seq
      by_cases hcan : cancelObserved cancelAt seq = true
      · exact ⟨0, by simp [runWork, hcan]⟩
      · obtain ⟨n, hn⟩ := ih (seq + 1)
        refine ⟨n + 1, ?_⟩
        rw [List.range'_succ]
        simp only [runWork, hcan, Bool.false_eq_true, if_false,
          chunkSeqs_cons_chunk, hn]

/-- C4 (spec-modelled): every session stream consists of chunks followed by
exactly one terminal status; the terminal status is the last message, no
message of any kind follows it, and every message of the stream carries the
session request id. -/
theorem terminal_exactly_once (rid : String) (chunks : List String)
    (result : Except String String) (cancelAt : Option Nat) :
    ∃ pre t,
      sessionTrace rid chunks result cancelAt = pre ++ [StreamMsg.terminal t] ∧
      (∀ m ∈ pre, ∃ c, m = StreamMsg.chunk c) ∧
      terminalCount (sessionTrace rid chunks result cancelAt) = 1 ∧
      (sessionTrace rid chunks result cancelAt).getLast? =
        some (StreamMsg.terminal t) ∧
      ∀ m ∈ sessionTrace rid chunks result cancelAt, msgRid m = rid := by
  obtain ⟨pre, t, heq, hpre, hrid⟩ := runWork_decomp rid result cancelAt chunks 0
  have heq' : sessionTrace rid chunks result cancelAt =
      pre ++ [StreamMsg.terminal t] := heq
  refine ⟨pre, t, heq', fun m hm => (hpre m hm).imp fun c hc => hc.1, ?_, ?_, ?_⟩
  · rw [heq', terminalCount_append,
      terminalCount_of_chunks pre fun m hm => (hpre m hm).imp fun c hc => hc.1]
    simp
  · rw [heq', List.getLast?_concat]
  · intro m hm
    rw [heq'] at hm
    rcases List.mem_append.mp hm with hm | hm
    · obtain ⟨c, rfl, hc⟩ := hpre m hm
      exact hc
    · rcases List.mem_singleton.mp hm with rfl
      exact hrid

/-- C5 (spec-modelled): the sequence numbers of the chunks a client
observes are exactly 0, 1, 2, up to the number of chunks, with no gaps and
no repeats, and the stream ends in exactly one terminal status. -/
theorem chunk_numbering (rid : String) (chunks : List String)
    (result : Except String String) (cancelAt : Option Nat) :
    chunkSeqs (sessionTrace rid chunks result cancelAt) =
      List.range (chunkSeqs (sessionTrace rid chunks result cancelAt)).length ∧
    terminalCount (sessionTrace rid chunks result cancelAt) = 1 ∧
    ∃ t, (sessionTrace rid chunks result cancelAt).getLast? =
      some (StreamMsg.terminal t) := by
  obtain ⟨n, hn⟩ := runWork_seqs rid result cancelAt chunks 0
  have hn' : chunkSeqs (sessionTrace rid chunks result cancelAt) =
      List.range' 0 n := hn
  obtain ⟨pre, t, heq, hpre, -⟩ := runWork_decomp rid result cancelAt chunks 0
  have heq' : sessionTrace rid chunks result cancelAt =
      pre ++ [StreamMsg.terminal t] := heq
  refine ⟨?_, ?_, t, ?_⟩
  · rw [hn', List.length_range', ← List.range_eq_range']
  · rw [heq', terminalCount_append,
      terminalCount_of_chunks pre fun m hm => (hpre m hm).imp fun c hc => hc.1]
    simp
  · rw [heq', List.getLast?_concat]

end AIP

namespace AIP

/-- C6 (spec-modelled): cancelling a request whose session has already
reached a terminal state changes no handler state, acknowledges success
rather than erroring, and repeating the cancel gives the same answer. -/
theorem cancel_after_terminal_noop (st : HandlerState) (rid : String)
    (s : Session) (hfind : lookupSession st rid = some s)
    (hterm : s.state.isTerminal = true) :
    cancel st rid = (st, .ok ()) ∧
    cancel (cancel st rid).1 rid = cancel st rid := by
  have h : cancel st rid = (st, .ok ()) := by
    simp [cancel, hfind, hterm]
  exact ⟨h, by rw [h]; exact h⟩

/-- A handler retaining one completed session named r1. -/
def stTerminal : HandlerState :=
  ⟨[("r1", ⟨.completed, 3, false⟩)], true⟩

/-- Concrete instance of cancel_after_terminal_noop: cancelling r1 after
its completion is acknowledged and changes nothing. -/
theorem cancel_after_terminal_noop_witness :
    lookupSession stTerminal "r1" = some ⟨.completed, 3, false⟩ ∧
    (⟨.completed, 3, false⟩ : Session).state.isTerminal = true ∧
    (cancel stTerminal "r1" = (stTerminal, .ok ()) ∧
     cancel (cancel stTerminal "r1").1 "r1" = cancel stTerminal "r1") :=
  ⟨rfl, rfl, cancel_after_terminal_noop stTerminal "r1" ⟨.completed, 3, false⟩ rfl rfl⟩

/-- C7 (spec-modelled): a request whose deadline already passed at
admission time is rejected synchronously with DeadlineExceeded; the handler
state is returned untouched, so no session is created, the session table is
unchanged, and the health report, in particular the active session count,
is the same as before. -/
theorem past_deadline_rejected (st : HandlerState) (req : InvocationRequest)
    (now : Nat) (d : Nat) (hd : req.deadline = some d) (hpast : d < now) :
    invoke st req now = (st, .error .DeadlineExceeded) ∧
    (invoke st req now).1.sessions = st.sessions ∧
    health (invoke st req now).1 = health st := by
  have h : invoke st req now = (st, .error .DeadlineExceeded) := by
    simp [invoke, hd, hpast]
  exact ⟨h, by rw [h], by rw [h]⟩

/-- Concrete instance of past_deadline_rejected: a request with deadline 5
arriving at time 10 against an empty handler. -/
theorem past_deadline_rejected_witness :
    (InvocationRequest.mk "r2" "task" (some 5)).deadline = some 5 ∧ 5 < 10 ∧
    (invoke ⟨[], true⟩ ⟨"r2", "task", some 5⟩ 10 =
      (⟨[], true⟩, .error .DeadlineExceeded) ∧
     (invoke ⟨[], true⟩ ⟨"r2", "task", some 5⟩ 10).1.sessions = [] ∧
     health (invoke ⟨[], true⟩ ⟨"r2", "task", some 5⟩ 10).1 =
       health ⟨[], true⟩) :=
  ⟨rfl, by decide,
   past_deadline_rejected ⟨[], true⟩ ⟨"r2", "task", some 5⟩ 10 5 rfl (by decide)⟩

end AIP
